import Mathlib

/-!
Shallow embedding of the notification center in
`src/agentsolvr/electron/notifications.py` (class `NotificationCenter` and its
helper entry points), together with proofs of the specification's claims about
it.

Modelling conventions:
* Python machine state (`active_notifications` dict, `notification_queue`
  priority queue, `notification_history` list, `stats` counters, the
  do-not-disturb flag) becomes the explicit record `NCState`; each Python
  method becomes a state-passing function.
* The `queue.PriorityQueue` is modelled as a list of
  `(priority_tuple, notification)` entries together with `popMin`, which
  removes an entry whose key `(100 - priority.value, timestamp)` is minimal in
  the lexicographic order — exactly the element `heapq` delivers when keys are
  distinct (equal full tuples would make Python compare two
  `DesktopNotification` dataclasses, which raises `TypeError`, so the heap is
  only ever exercised on distinct keys).
* Creation timestamps (`time.time()`) are modelled as naturals supplied by the
  caller (`now`/the `timestamp` field); only their ordering matters here.
  Generated ids (`f"notif_{...}"`) are modelled by an explicit nonempty
  `genId` argument.
* Calls out of the class — `system_tray.show_notification`,
  `system_tray.update_status`, and user-supplied dismiss callbacks — are
  recorded as event traces in the state.  A user callback is a
  `CallbackBehavior`: it either returns or raises; the `try/except` around the
  call site is reflected by both branches producing the same state.
* Background timers (auto-dismiss threads, do-not-disturb expiry) are
  real-time concurrency and are not part of a state step; the dismissals they
  eventually perform are covered by the ordinary `dismiss` transition.
* `show_cost_alert` divides by `threshold` on its first line, so it is
  embedded as a fallible function returning `Except`; the error value models
  `ZeroDivisionError` propagating with the center state untouched.
-/

namespace AgentSolvr

/-- Notification type tags (`NotificationType` enum). -/
inductive NotificationType where
  | info
  | success
  | warning
  | error
  | progress
  | claude_activity
  | system_status
  | user_action_required
deriving DecidableEq

/-- Priority levels (`NotificationPriority` enum). -/
inductive NotificationPriority where
  | low
  | normal
  | high
  | critical
  | urgent
deriving DecidableEq

/-- Numeric values of the priority enum (`LOW = 1` … `URGENT = 5`). -/
def NotificationPriority.value : NotificationPriority → Nat
  | .low => 1
  | .normal => 2
  | .high => 3
  | .critical => 4
  | .urgent => 5

/-- Behaviour of a user-supplied callback: it either returns normally or
raises an exception. -/
inductive CallbackBehavior where
  | ok
  | raises
deriving DecidableEq

/-- An action button (`NotificationAction` dataclass). -/
structure NotificationAction where
  id : String
  label : String
  action_type : String := "button"
  callback : Option CallbackBehavior := none
  style : String := "default"
deriving DecidableEq

/-- A desktop notification (`DesktopNotification` dataclass).  The opaque
`data` payload dict is not modelled; float-valued fields are rationals. -/
structure DesktopNotification where
  id : String
  title : String
  message : String
  type : NotificationType := .info
  priority : NotificationPriority := .normal
  timestamp : Nat := 0
  duration : Int := 5000
  sound : Bool := true
  badge_count : Option Nat := none
  icon : Option String := none
  image : Option String := none
  actions : List NotificationAction := []
  click_callback : Option CallbackBehavior := none
  dismiss_callback : Option CallbackBehavior := none
  progress_value : Option ℚ := none
  progress_text : Option String := none
  group_id : Option String := none
  replace_id : Option String := none
  source : String := "system"
  tags : List String := []
deriving DecidableEq

/-- Tray icon states (`TrayIconStatus` enum in `system_tray.py`). -/
inductive TrayIconStatus where
  | idle
  | active
  | working
  | error
  | offline
deriving DecidableEq

/-- The projection forwarded to the tray sink
(`TrayNotification(title, body, timeout, click_handler)`). -/
structure TrayEvent where
  title : String
  body : String
  timeout : Int
deriving DecidableEq

/-- A pending-queue entry: the key `(100 - priority.value, timestamp)` that
`show_notification` builds, paired with the notification. -/
abbrev QEntry := (Nat × Nat) × DesktopNotification

/-- State of a `NotificationCenter`; defaults are those set in `__init__`
(config values `max_simultaneous = 3`, `history_limit = 100`).  The trace
fields record calls leaving the class. -/
structure NCState where
  active_notifications : List (String × DesktopNotification) := []
  notification_queue : List QEntry := []
  notification_history : List DesktopNotification := []
  max_simultaneous : Nat := 3
  history_limit : Nat := 100
  do_not_disturb : Bool := false
  total_sent : Nat := 0
  dismissed_count : Nat := 0
  action_clicks : Nat := 0
  claude_notifications : Nat := 0
  system_notifications : Nat := 0
  tray_events : List TrayEvent := []
  tray_status_updates : List (TrayIconStatus × String) := []
  dismiss_callback_calls : List (String × String) := []
deriving DecidableEq

/-- The freshly constructed center state. -/
def initState : NCState := {}

/-- Priority-queue key of a notification:
`(100 - notification.priority.value, notification.timestamp)`. -/
def priorityKey (n : DesktopNotification) : Nat × Nat :=
  (100 - n.priority.value, n.timestamp)

/-- Lexicographic order on queue keys: exactly the order Python uses to
compare the `(100 - priority, timestamp)` tuples in the heap. -/
def keyLe (a b : Nat × Nat) : Prop :=
  a.1 < b.1 ∨ (a.1 = b.1 ∧ a.2 ≤ b.2)

instance (a b : Nat × Nat) : Decidable (keyLe a b) := by
  unfold keyLe; exact inferInstance

/-- Remove an entry with minimal key from the queue (what
`PriorityQueue.get` delivers); returns the entry and the remaining entries. -/
def popMin : List QEntry → Option (QEntry × List QEntry)
  | [] => none
  | e :: rest =>
    match popMin rest with
    | none => some (e, [])
    | some (m, rest') =>
      if keyLe e.1 m.1 then some (e, rest) else some (m, e :: rest')

/-- Insertion into the active dict `active_notifications[id] = n`: overwrite
in place when the key exists, else append. -/
def alistInsert (l : List (String × DesktopNotification)) (k : String)
    (v : DesktopNotification) : List (String × DesktopNotification) :=
  if l.any (fun p => p.1 == k) then
    l.map (fun p => if p.1 == k then (k, v) else p)
  else
    l ++ [(k, v)]

/-- Method `_dismiss_notification(notification_id, reason)`: pop the id from
the active dict (returning `false` when absent), invoke the dismiss callback
with exceptions caught and logged, increment the dismissed counter. -/
def dismissInternal (s : NCState) (nid reason : String) : NCState × Bool :=
  match s.active_notifications.find? (fun p => p.1 == nid) with
  | none => (s, false)
  | some p =>
    let s1 := { s with
      active_notifications :=
        s.active_notifications.filter (fun q => !(q.1 == nid)) }
    let s2 :=
      match p.2.dismiss_callback with
      | none => s1
      | some .ok =>
        { s1 with dismiss_callback_calls :=
            s1.dismiss_callback_calls ++ [(nid, reason)] }
      | some .raises =>
        -- the exception is caught by the `try/except` and only logged
        { s1 with dismiss_callback_calls :=
            s1.dismiss_callback_calls ++ [(nid, reason)] }
    ({ s2 with dismissed_count := s2.dismissed_count + 1 }, true)

/-- Method `dismiss_notification(notification_id, reason)`. -/
def dismiss_notification (s : NCState) (nid : String)
    (reason : String := "user_dismissed") : NCState × Bool :=
  dismissInternal s nid reason

/-- Replace an empty caller id with the generated one
(`if not notification.id: notification.id = f"notif_..."`). -/
def resolveId (genId : String) (n : DesktopNotification) : DesktopNotification :=
  if n.id = "" then { n with id := genId } else n

/-- Replacement handling inside `show_notification`: when `replace_id` names
a currently active notification, dismiss it with reason `replaced`.  The
guard `notification.replace_id and ...` is Python truthiness, so an
empty-string `replace_id` is ignored. -/
def replacePhase (s : NCState) (n : DesktopNotification) : NCState :=
  match n.replace_id with
  | some rid =>
    if rid ≠ "" ∧ s.active_notifications.any (fun p => p.1 == rid) then
      (dismissInternal s rid "replaced").1
    else s
  | none => s

/-- Method `show_notification(notification)`: generate the id if missing;
return immediately under do-not-disturb for sub-critical priorities; run the
replacement phase; enqueue keyed by `(100 - priority.value, timestamp)`. -/
def show_notification (s : NCState) (n : DesktopNotification)
    (genId : String) : NCState × String :=
  let n := resolveId genId n
  if s.do_not_disturb ∧ n.priority.value < NotificationPriority.critical.value then
    (s, n.id)
  else
    let s := replacePhase s n
    ({ s with notification_queue :=
        s.notification_queue ++ [(priorityKey n, n)] }, n.id)

/-- Method `_display_notification(notification)`: move into the active dict,
append to history evicting index 0 past the bound, forward the
`(title, body, timeout)` projection to the tray sink, bump `total_sent`.
The auto-dismiss timer thread is not part of the state step. -/
def displayNotification (s : NCState) (n : DesktopNotification) : NCState :=
  let active := alistInsert s.active_notifications n.id n
  let hist := s.notification_history ++ [n]
  let hist := if s.history_limit < hist.length then hist.drop 1 else hist
  { s with
    active_notifications := active
    notification_history := hist
    tray_events := s.tray_events ++ [⟨n.title, n.message, n.duration⟩]
    total_sent := s.total_sent + 1 }

/-- One iteration of the delivery worker `_process_notification_queue`: pop
the minimal-key entry; if the active set is at the `max_simultaneous` cap,
push the identical tuple back and back off; otherwise display. -/
def workerStep (s : NCState) : NCState :=
  match popMin s.notification_queue with
  | none => s
  | some (e, rest) =>
    if s.max_simultaneous ≤ s.active_notifications.length then
      { s with notification_queue := rest ++ [e] }
    else
      displayNotification { s with notification_queue := rest } e.2

/-- Approximation of Python `str.title()`: upper-case each letter that starts
an alphabetic run, lower-case the rest. -/
def titleCaseAux : List Char → Bool → List Char
  | [], _ => []
  | c :: cs, prevAlpha =>
    (if c.isAlpha then (if prevAlpha then c.toLower else c.toUpper) else c)
      :: titleCaseAux cs c.isAlpha

/-- Python `str.title()` on a string. -/
def titleCase (s : String) : String :=
  ⟨titleCaseAux s.data false⟩

/-- Detail dict passed to `show_claude_notification`; the float
`cost_estimate` arrives pre-formatted (`f"{cost:.3f}"`) as `cost_str`. -/
structure ClaudeDetails where
  tokens_used : Nat := 0
  cost_str : String := "0.000"
  error : Option String := none
  message : Option String := none
deriving DecidableEq

/-- The notification built by `show_claude_notification(operation, status,
details)`: title/message/type/icon from the status branch, priority always
`NORMAL`, id `claude_{operation}_{int(time.time())}`. -/
def claudeNotification (operation status : String) (d : ClaudeDetails)
    (now : Nat) : DesktopNotification :=
  let quad :=
    if status = "started" then
      ("Claude " ++ titleCase operation, "Starting " ++ operation ++ "...",
       NotificationType.claude_activity, "claude_working")
    else if status = "completed" then
      ("Claude " ++ titleCase operation ++ " Complete",
       "Analysis complete. Tokens: " ++ toString d.tokens_used ++
         ", Cost: $" ++ d.cost_str,
       NotificationType.success, "claude_success")
    else if status = "failed" then
      ("Claude " ++ titleCase operation ++ " Failed",
       "Operation failed: " ++ d.error.getD "Unknown error",
       NotificationType.error, "claude_error")
    else
      ("Claude " ++ titleCase operation,
       d.message.getD ("Claude " ++ operation ++ " " ++ status),
       NotificationType.info, "claude_info")
  { id := "claude_" ++ operation ++ "_" ++ toString now
    title := quad.1
    message := quad.2.1
    type := quad.2.2.1
    priority := .normal
    timestamp := now
    icon := some quad.2.2.2
    source := "claude"
    tags := ["claude", operation]
    group_id := some "claude_operations"
    actions :=
      if status = "completed" ∧ operation = "analyze_code" then
        [{ id := "view_results", label := "View Results", callback := some .ok },
         { id := "run_tests", label := "Generate Tests", callback := some .ok }]
      else if status = "failed" then
        [{ id := "retry", label := "Retry", callback := some .ok },
         { id := "view_error", label := "View Error", callback := some .ok }]
      else [] }

/-- Method `show_claude_notification`: build the notification, bump the
`claude_notifications` counter, then `show_notification`. -/
def show_claude_notification (s : NCState) (operation status : String)
    (d : ClaudeDetails) (now : Nat) : NCState × String :=
  let notification := claudeNotification operation status d now
  let s := { s with claude_notifications := s.claude_notifications + 1 }
  show_notification s notification ""

/-- Status → icon table in `show_system_status`. -/
def statusIcon (status : String) : String :=
  if status = "connected" then "status_connected"
  else if status = "disconnected" then "status_disconnected"
  else if status = "error" then "status_error"
  else if status = "warning" then "status_warning"
  else if status = "maintenance" then "status_maintenance"
  else "status_info"

/-- Status → type table in `show_system_status`. -/
def statusType (status : String) : NotificationType :=
  if status = "connected" then .success
  else if status = "disconnected" then .warning
  else if status = "error" then .error
  else if status = "warning" then .warning
  else if status = "maintenance" then .info
  else .info

/-- The notification built by `show_system_status(component, status,
details)`. -/
def systemStatusNotification (component status : String)
    (details : Option String) : DesktopNotification :=
  { id := "system_" ++ component ++ "_" ++ status
    title := titleCase component ++ " " ++ titleCase status
    message := details.getD (component ++ " is " ++ status)
    type := statusType status
    priority := if status = "error" then .high else .normal
    icon := some (statusIcon status)
    source := "system"
    tags := ["system", component, status]
    group_id := some ("system_" ++ component) }

/-- Tray status used when `show_system_status` reports on the `claude`
component. -/
def trayStatusFor (status : String) : TrayIconStatus :=
  if status = "connected" then .active
  else if status = "disconnected" then .offline
  else .error

/-- Method `show_system_status`: build the notification, update the tray
status for the `claude` component, bump the `system_notifications` counter,
then `show_notification`. -/
def show_system_status (s : NCState) (component status : String)
    (details : Option String) : NCState × String :=
  let notification := systemStatusNotification component status details
  let s :=
    if component = "claude" ∧
        (status = "connected" ∨ status = "disconnected" ∨ status = "error") then
      { s with tray_status_updates :=
          s.tray_status_updates ++ [(trayStatusFor status, "Claude: " ++ status)] }
    else s
  let s := { s with system_notifications := s.system_notifications + 1 }
  show_notification s notification ""

/-- The notification built by `show_cost_alert` once the percentage
`current_cost / threshold * 100` has been computed. -/
def costAlertNotification (current_cost threshold : ℚ) (period : String)
    (now : Nat) : DesktopNotification :=
  let percentage := current_cost / threshold * 100
  { id := "cost_alert_" ++ period
    title := "Cost Alert"
    message := titleCase period ++ " usage alert"
    type := if 80 ≤ percentage then .warning else .info
    priority := if 100 ≤ percentage then .high else .normal
    timestamp := now
    icon := some "cost_warning"
    actions :=
      [{ id := "view_usage", label := "View Usage Details", callback := some .ok },
       { id := "adjust_limits", label := "Adjust Limits", callback := some .ok }]
    source := "cost_monitor"
    tags := ["cost", "alert", period]
    group_id := some "cost_monitoring" }

/-- Method `show_cost_alert(current_cost, threshold, period)`: the first
statement divides by `threshold`, so `threshold = 0` raises
`ZeroDivisionError` before any notification is created or queued — modelled
as an `Except.error` carrying no mutated state. -/
def show_cost_alert (s : NCState) (current_cost threshold : ℚ)
    (period : String) (now : Nat) : Except String (NCState × String) :=
  if threshold = 0 then
    .error "ZeroDivisionError"
  else
    .ok (show_notification s
      (costAlertNotification current_cost threshold period now) "")

/-- Method `show_progress_notification(operation_id, title, progress,
status_text)`. -/
def show_progress_notification (s : NCState) (operation_id title : String)
    (progress : ℚ) (status_text : String) (now : Nat) : NCState × String :=
  show_notification s
    { id := "progress_" ++ operation_id
      title := title
      message := status_text
      type := .progress
      priority := .normal
      timestamp := now
      duration := 0
      progress_value := some progress
      progress_text := some (toString ⌊progress * 100⌋ ++ "%")
      replace_id := some ("progress_" ++ operation_id) } ""

/-- Method `set_do_not_disturb(enabled, duration)`: sets the flag; the
fire-and-forget expiry timer is a real-time thread, not a state step. -/
def set_do_not_disturb (s : NCState) (enabled : Bool) : NCState :=
  { s with do_not_disturb := enabled }

/-- Loop body of `clear_all_notifications` over the snapshot of active ids. -/
def clearAllGo : NCState → List String → NCState
  | s, [] => s
  | s, nid :: rest => clearAllGo (dismissInternal s nid "cleared_all").1 rest

/-- Method `clear_all_notifications()`: dismiss every active notification
with reason `cleared_all`, returning the count taken before clearing. -/
def clear_all_notifications (s : NCState) : NCState × Nat :=
  let count := s.active_notifications.length
  (clearAllGo s (s.active_notifications.map (·.1)), count)

/-- Loop body of `dismiss_group` over the snapshot of matching ids. -/
def dismissGroupGo : NCState → List String → Nat → NCState × Nat
  | s, [], count => (s, count)
  | s, nid :: rest, count =>
    let r := dismissInternal s nid "group_dismissed"
    dismissGroupGo r.1 rest (if r.2 then count + 1 else count)

/-- Method `dismiss_group(group_id)`. -/
def dismiss_group (s : NCState) (gid : String) : NCState × Nat :=
  dismissGroupGo s
    ((s.active_notifications.filter
        (fun p => p.2.group_id == some gid)).map (·.1)) 0

/-- Reachable center states: the initial state closed under the public
operations and worker iterations.  The `genId` argument of a raw
`show_notification` call is the Python-generated `f"notif_..."` string and is
therefore never empty. -/
inductive Reachable : NCState → Prop where
  | init : Reachable initState
  | showNotif (s : NCState) (n : DesktopNotification) (genId : String)
      (hg : genId ≠ "") (h : Reachable s) :
      Reachable (show_notification s n genId).1
  | claude (s : NCState) (operation status : String) (d : ClaudeDetails)
      (now : Nat) (h : Reachable s) :
      Reachable (show_claude_notification s operation status d now).1
  | system (s : NCState) (component status : String) (details : Option String)
      (h : Reachable s) :
      Reachable (show_system_status s component status details).1
  | cost (s : NCState) (c t : ℚ) (period : String) (now : Nat)
      (r : NCState × String) (h : Reachable s)
      (hr : show_cost_alert s c t period now = .ok r) :
      Reachable r.1
  | progress (s : NCState) (operation_id title : String) (progress : ℚ)
      (status_text : String) (now : Nat) (h : Reachable s) :
      Reachable (show_progress_notification s operation_id title progress
        status_text now).1
  | dismiss (s : NCState) (nid reason : String) (h : Reachable s) :
      Reachable (dismiss_notification s nid reason).1
  | dismissGrp (s : NCState) (gid : String) (h : Reachable s) :
      Reachable (dismiss_group s gid).1
  | clearAll (s : NCState) (h : Reachable s) :
      Reachable (clear_all_notifications s).1
  | setDnd (s : NCState) (b : Bool) (h : Reachable s) :
      Reachable (set_do_not_disturb s b)
  | worker (s : NCState) (h : Reachable s) :
      Reachable (workerStep s)

/-- Fuel-indexed repetition of `popMin`: the order in which the worker would
deliver the queue when capacity never intervenes. -/
def drainFuel : Nat → List QEntry → List QEntry
  | 0, _ => []
  | fuel + 1, l =>
    match popMin l with
    | none => []
    | some (e, r) => e :: drainFuel fuel r

/-- Delivery order of a whole queue (enough fuel to empty it). -/
def drain (l : List QEntry) : List QEntry :=
  drainFuel l.length l

/-- State invariant maintained by every operation: the active set respects the
`max_simultaneous` cap, the history respects `history_limit`, and every id
held in the active set or the pending queue is nonempty (caller-supplied ids
pass the truthiness check, generated ids start with `notif_`). -/
def GoodState (s : NCState) : Prop :=
  s.active_notifications.length ≤ s.max_simultaneous ∧
  s.notification_history.length ≤ s.history_limit ∧
  (∀ p ∈ s.active_notifications, p.1 ≠ "") ∧
  (∀ e ∈ s.notification_queue, e.2.id ≠ "")

/-- Fixture: a normal-priority notification created at time 5. -/
def wNormal5 : DesktopNotification :=
  { id := "wNormal5", title := "tA", message := "mA", timestamp := 5 }

/-- Fixture: a high-priority notification created at time 2. -/
def wHigh2 : DesktopNotification :=
  { id := "wHigh2", title := "tB", message := "mB", priority := .high,
    timestamp := 2 }

/-- Fixture: a two-entry queue keyed as `show_notification` would key it. -/
def wQueue : List QEntry :=
  [(priorityKey wNormal5, wNormal5), (priorityKey wHigh2, wHigh2)]

/-- Fixture: a center at the `max_simultaneous` cap with `wQueue` pending. -/
def wAtCapacity : NCState :=
  { initState with
    active_notifications :=
      [("a", wNormal5), ("b", wHigh2), ("c", { wNormal5 with id := "c" })]
    notification_queue := wQueue }

/-- Fixture: a critical-priority notification. -/
def wCritical : DesktopNotification :=
  { id := "wCritical", title := "tC", message := "mC", priority := .critical,
    timestamp := 7 }

/-- Fixture: a notification whose dismiss callback raises. -/
def wRaising : DesktopNotification :=
  { id := "wRaising", title := "tR", message := "mR",
    dismiss_callback := some .raises }

/-- Fixture: a notification that will sit in the active set as a replacement
target. -/
def wBase : DesktopNotification :=
  { id := "wBase", title := "tBase", message := "mBase", timestamp := 1 }

/-- Fixture: a reachable state whose active set holds `wBase` (one `show`
followed by one worker iteration from the initial state). -/
def wWithBase : NCState :=
  workerStep (show_notification initState wBase "notif_g").1

/-- Fixture: a notification that replaces `wBase`. -/
def wReplacer : DesktopNotification :=
  { id := "wReplacer", title := "tRep", message := "mRep", timestamp := 9,
    replace_id := some "wBase" }

/-- Fixture: a fresh center with do-not-disturb switched on. -/
def wDndState : NCState :=
  { initState with do_not_disturb := true }

/-- Fixture: a center whose only active notification has a raising dismiss
callback. -/
def wRaisingState : NCState :=
  { initState with active_notifications := [("wRaising", wRaising)] }

/-- Fixture: the reachable state `wWithBase` with do-not-disturb then
enabled. -/
def wDndBase : NCState :=
  set_do_not_disturb wWithBase true

theorem keyLe_refl (a : Nat × Nat) : keyLe a a :=
  Or.inr ⟨rfl, le_refl _⟩

theorem keyLe_trans {a b c : Nat × Nat} (h1 : keyLe a b) (h2 : keyLe b c) :
    keyLe a c := by
  unfold keyLe at *
  omega

theorem keyLe_total (a b : Nat × Nat) : keyLe a b ∨ keyLe b a := by
  unfold keyLe
  omega

theorem keyLe_of_not_keyLe {a b : Nat × Nat} (h : ¬ keyLe a b) : keyLe b a :=
  (keyLe_total a b).resolve_left h

theorem keyLe_antisymm {a b : Nat × Nat} (h1 : keyLe a b) (h2 : keyLe b a) :
    a = b := by
  unfold keyLe at h1 h2
  have ha : a.1 = b.1 ∧ a.2 = b.2 := by omega
  calc a = (a.1, a.2) := rfl
    _ = (b.1, b.2) := by rw [ha.1, ha.2]
    _ = b := rfl

theorem popMin_eq_none {l : List QEntry} : popMin l = none ↔ l = [] := by
  cases l with
  | nil => simp [popMin]
  | cons e rest =>
    cases hp : popMin rest with
    | none => simp [popMin, hp]
    | some m =>
      obtain ⟨me, mr⟩ := m
      simp only [popMin, hp]
      split <;> simp

theorem popMin_cons_perm {l : List QEntry} {e : QEntry} {r : List QEntry}
    (h : popMin l = some (e, r)) : l.Perm (e :: r) := by
  induction l generalizing e r with
  | nil => simp [popMin] at h
  | cons a rest ih =>
    cases hp : popMin rest with
    | none =>
      have hrest : rest = [] := popMin_eq_none.mp hp
      subst hrest
      simp only [popMin, Option.some.injEq, Prod.mk.injEq] at h
      obtain ⟨h1, h2⟩ := h
      subst h1; subst h2
      exact List.Perm.refl _
    | some m =>
      obtain ⟨me, mr⟩ := m
      simp only [popMin, hp] at h
      split at h
      · simp only [Option.some.injEq, Prod.mk.injEq] at h
        obtain ⟨h1, h2⟩ := h
        subst h1; subst h2
        exact List.Perm.refl _
      · simp only [Option.some.injEq, Prod.mk.injEq] at h
        obtain ⟨h1, h2⟩ := h
        subst h1; subst h2
        exact (List.Perm.cons a (ih hp)).trans (List.Perm.swap me a mr)

theorem popMin_min {l : List QEntry} {e : QEntry} {r : List QEntry}
    (h : popMin l = some (e, r)) : ∀ x ∈ l, keyLe e.1 x.1 := by
  induction l generalizing e r with
  | nil => simp [popMin] at h
  | cons a rest ih =>
    cases hp : popMin rest with
    | none =>
      have hrest : rest = [] := popMin_eq_none.mp hp
      subst hrest
      simp only [popMin] at h
      have h' := Option.some.inj h
      rw [Prod.mk.injEq] at h'
      obtain ⟨h1, _⟩ := h'
      subst h1
      intro x hx
      rcases List.mem_singleton.mp hx with rfl
      exact keyLe_refl _
    | some m =>
      obtain ⟨me, mr⟩ := m
      simp only [popMin, hp] at h
      split at h
      case isTrue hle =>
        have h' := Option.some.inj h
        rw [Prod.mk.injEq] at h'
        obtain ⟨h1, _⟩ := h'
        subst h1
        intro x hx
        rcases List.mem_cons.mp hx with rfl | hx
        · exact keyLe_refl _
        · exact keyLe_trans hle (ih hp x hx)
      case isFalse hle =>
        have h' := Option.some.inj h
        rw [Prod.mk.injEq] at h'
        obtain ⟨h1, _⟩ := h'
        subst h1
        intro x hx
        rcases List.mem_cons.mp hx with rfl | hx
        · exact keyLe_of_not_keyLe hle
        · exact ih hp x hx

theorem popMin_length {l : List QEntry} {e : QEntry} {r : List QEntry}
    (h : popMin l = some (e, r)) : r.length + 1 = l.length := by
  have := (popMin_cons_perm h).length_eq
  simpa using this.symm

theorem popMin_mem {l : List QEntry} {e : QEntry} {r : List QEntry}
    (h : popMin l = some (e, r)) : e ∈ l :=
  (popMin_cons_perm h).mem_iff.mpr (List.mem_cons_self e r)

theorem drainFuel_perm :
    ∀ (fuel : Nat) (l : List QEntry), l.length ≤ fuel →
      (drainFuel fuel l).Perm l := by
  intro fuel
  induction fuel with
  | zero =>
    intro l h
    have : l = [] := List.length_eq_zero.mp (Nat.le_zero.mp h)
    subst this
    simp [drainFuel]
  | succ f ih =>
    intro l h
    cases hp : popMin l with
    | none =>
      have : l = [] := popMin_eq_none.mp hp
      subst this
      simp [drainFuel, popMin]
    | some er =>
      obtain ⟨e, r⟩ := er
      have hlen := popMin_length hp
      have heq : drainFuel (f + 1) l = e :: drainFuel f r := by
        simp [drainFuel, hp]
      rw [heq]
      exact (List.Perm.cons e (ih r (by omega))).trans (popMin_cons_perm hp).symm

theorem drainFuel_sorted :
    ∀ (fuel : Nat) (l : List QEntry), l.length ≤ fuel →
      List.Pairwise (fun a b : QEntry => keyLe a.1 b.1) (drainFuel fuel l) := by
  intro fuel
  induction fuel with
  | zero => intro l _; simp [drainFuel]
  | succ f ih =>
    intro l h
    cases hp : popMin l with
    | none => simp [drainFuel, hp]
    | some er =>
      obtain ⟨e, r⟩ := er
      have hlen := popMin_length hp
      have heq : drainFuel (f + 1) l = e :: drainFuel f r := by
        simp [drainFuel, hp]
      rw [heq]
      refine List.Pairwise.cons ?_ (ih r (by omega))
      intro x hx
      have hxr : x ∈ r := (drainFuel_perm f r (by omega)).mem_iff.mp hx
      have hxl : x ∈ l := (popMin_cons_perm hp).mem_iff.mpr (List.mem_cons_of_mem e hxr)
      exact popMin_min hp x hxl

theorem drain_perm (l : List QEntry) : (drain l).Perm l :=
  drainFuel_perm l.length l (le_refl _)

theorem drain_sorted (l : List QEntry) :
    List.Pairwise (fun a b : QEntry => keyLe a.1 b.1) (drain l) :=
  drainFuel_sorted l.length l (le_refl _)

theorem sorted_nodup_keys_unique :
    ∀ (l₁ l₂ : List QEntry), l₁.Perm l₂ →
      List.Pairwise (fun a b : QEntry => keyLe a.1 b.1) l₁ →
      List.Pairwise (fun a b : QEntry => keyLe a.1 b.1) l₂ →
      (l₁.map (·.1)).Nodup → l₁ = l₂ := by
  intro l₁
  induction l₁ with
  | nil =>
    intro l₂ hp _ _ _
    exact (hp.symm.eq_nil).symm ▸ rfl
  | cons a t ih =>
    intro l₂ hp hs₁ hs₂ hnd
    cases l₂ with
    | nil => exact absurd hp.length_eq (by simp)
    | cons b t₂ =>
      have hb_mem : b ∈ a :: t := hp.symm.subset (List.mem_cons_self b t₂)
      have ha_mem : a ∈ b :: t₂ := hp.subset (List.mem_cons_self a t)
      have hab : a = b := by
        rcases List.mem_cons.mp hb_mem with h | hbt
        · exact h.symm
        rcases List.mem_cons.mp ha_mem with h | hat
        · exact h
        have h1 : keyLe a.1 b.1 := (List.pairwise_cons.mp hs₁).1 b hbt
        have h2 : keyLe b.1 a.1 := (List.pairwise_cons.mp hs₂).1 a hat
        have hkey : a.1 = b.1 := keyLe_antisymm h1 h2
        exfalso
        have hmem : a.1 ∈ t.map (·.1) := by
          rw [hkey]
          exact List.mem_map_of_mem _ hbt
        have hnd' : a.1 ∉ t.map (·.1) := by
          have : (a.1 :: t.map (·.1)).Nodup := by simpa using hnd
          exact (List.nodup_cons.mp this).1
        exact hnd' hmem
      subst hab
      have ht : t.Perm t₂ := hp.cons_inv
      have hstep := ih t₂ ht (List.pairwise_cons.mp hs₁).2
        (List.pairwise_cons.mp hs₂).2
        (by
          have : (a.1 :: t.map (·.1)).Nodup := by simpa using hnd
          exact (List.nodup_cons.mp this).2)
      rw [hstep]

theorem drain_eq_of_perm {l₁ l₂ : List QEntry} (hp : l₁.Perm l₂)
    (hnd : (l₁.map Prod.fst).Nodup) : drain l₁ = drain l₂ := by
  refine sorted_nodup_keys_unique (drain l₁) (drain l₂)
    ((drain_perm l₁).trans (hp.trans (drain_perm l₂).symm))
    (drain_sorted l₁) (drain_sorted l₂) ?_
  have hm : ((drain l₁).map Prod.fst).Perm (l₁.map Prod.fst) :=
    (drain_perm l₁).map _
  exact hm.nodup_iff.mpr hnd

theorem string_append_ne_empty {a : String} (b : String) (h : a ≠ "") :
    a ++ b ≠ "" := by
  obtain ⟨da⟩ := a
  obtain ⟨db⟩ := b
  intro hc
  apply h
  have hd : da ++ db = [] := congrArg String.data hc
  have hda : da = [] := (List.append_eq_nil.mp hd).1
  subst hda
  rfl

theorem resolveId_ne {genId : String} (n : DesktopNotification)
    (hg : genId ≠ "") : (resolveId genId n).id ≠ "" := by
  by_cases h : n.id = ""
  · simp only [resolveId, if_pos h]
    exact hg
  · simp only [resolveId, if_neg h]
    exact h

theorem resolveId_of_ne {genId : String} {n : DesktopNotification}
    (h : n.id ≠ "") : resolveId genId n = n := by
  unfold resolveId
  split
  · exact absurd (by assumption) h
  · rfl

theorem dismissInternal_fields (s : NCState) (nid reason : String) :
    (dismissInternal s nid reason).1.notification_queue = s.notification_queue ∧
    (dismissInternal s nid reason).1.notification_history =
      s.notification_history ∧
    (dismissInternal s nid reason).1.max_simultaneous = s.max_simultaneous ∧
    (dismissInternal s nid reason).1.history_limit = s.history_limit ∧
    (dismissInternal s nid reason).1.do_not_disturb = s.do_not_disturb ∧
    (dismissInternal s nid reason).1.tray_events = s.tray_events ∧
    (dismissInternal s nid reason).1.tray_status_updates =
      s.tray_status_updates := by
  cases h : s.active_notifications.find? (fun p => p.1 == nid) with
  | none => simp [dismissInternal, h]
  | some p =>
    cases hc : p.2.dismiss_callback with
    | none => simp [dismissInternal, h, hc]
    | some b => cases b <;> simp [dismissInternal, h, hc]

theorem dismissInternal_active (s : NCState) (nid reason : String) :
    (dismissInternal s nid reason).1.active_notifications =
      s.active_notifications ∨
    (dismissInternal s nid reason).1.active_notifications =
      s.active_notifications.filter (fun q => !(q.1 == nid)) := by
  cases h : s.active_notifications.find? (fun p => p.1 == nid) with
  | none => left; simp [dismissInternal, h]
  | some p =>
    right
    cases hc : p.2.dismiss_callback with
    | none => simp [dismissInternal, h, hc]
    | some b => cases b <;> simp [dismissInternal, h, hc]

theorem dismissInternal_active_len (s : NCState) (nid reason : String) :
    (dismissInternal s nid reason).1.active_notifications.length ≤
      s.active_notifications.length := by
  rcases dismissInternal_active s nid reason with h | h
  · rw [h]
  · rw [h]
    exact List.length_filter_le _ _

theorem dismissInternal_active_mem (s : NCState) (nid reason : String) :
    ∀ p ∈ (dismissInternal s nid reason).1.active_notifications,
      p ∈ s.active_notifications := by
  intro p hp
  rcases dismissInternal_active s nid reason with h | h
  · rw [h] at hp; exact hp
  · rw [h] at hp; exact (List.mem_filter.mp hp).1

theorem clearAllGo_spec :
    ∀ (ids : List String) (s : NCState),
      (clearAllGo s ids).notification_queue = s.notification_queue ∧
      (clearAllGo s ids).notification_history = s.notification_history ∧
      (clearAllGo s ids).max_simultaneous = s.max_simultaneous ∧
      (clearAllGo s ids).history_limit = s.history_limit ∧
      (clearAllGo s ids).active_notifications.length ≤
        s.active_notifications.length ∧
      (∀ p ∈ (clearAllGo s ids).active_notifications,
        p ∈ s.active_notifications) := by
  intro ids
  induction ids with
  | nil => intro s; simp [clearAllGo]
  | cons nid rest ih =>
    intro s
    have hd := dismissInternal_fields s nid "cleared_all"
    have hdl := dismissInternal_active_len s nid "cleared_all"
    have hdm := dismissInternal_active_mem s nid "cleared_all"
    have hrec := ih (dismissInternal s nid "cleared_all").1
    obtain ⟨r1, r2, r3, r4, r5, r6⟩ := hrec
    obtain ⟨f1, f2, f3, f4, _, _, _⟩ := hd
    refine ⟨?_, ?_, ?_, ?_, ?_, ?_⟩
    · rw [show clearAllGo s (nid :: rest) =
        clearAllGo (dismissInternal s nid "cleared_all").1 rest from rfl,
        r1, f1]
    · rw [show clearAllGo s (nid :: rest) =
        clearAllGo (dismissInternal s nid "cleared_all").1 rest from rfl,
        r2, f2]
    · rw [show clearAllGo s (nid :: rest) =
        clearAllGo (dismissInternal s nid "cleared_all").1 rest from rfl,
        r3, f3]
    · rw [show clearAllGo s (nid :: rest) =
        clearAllGo (dismissInternal s nid "cleared_all").1 rest from rfl,
        r4, f4]
    · exact le_trans r5 hdl
    · intro p hp
      exact hdm p (r6 p hp)

theorem dismissGroupGo_spec :
    ∀ (ids : List String) (s : NCState) (c : Nat),
      (dismissGroupGo s ids c).1.notification_queue = s.notification_queue ∧
      (dismissGroupGo s ids c).1.notification_history =
        s.notification_history ∧
      (dismissGroupGo s ids c).1.max_simultaneous = s.max_simultaneous ∧
      (dismissGroupGo s ids c).1.history_limit = s.history_limit ∧
      (dismissGroupGo s ids c).1.active_notifications.length ≤
        s.active_notifications.length ∧
      (∀ p ∈ (dismissGroupGo s ids c).1.active_notifications,
        p ∈ s.active_notifications) := by
  intro ids
  induction ids with
  | nil => intro s c; simp [dismissGroupGo]
  | cons nid rest ih =>
    intro s c
    have hd := dismissInternal_fields s nid "group_dismissed"
    have hdl := dismissInternal_active_len s nid "group_dismissed"
    have hdm := dismissInternal_active_mem s nid "group_dismissed"
    have hrec := ih (dismissInternal s nid "group_dismissed").1
      (if (dismissInternal s nid "group_dismissed").2 then c + 1 else c)
    obtain ⟨r1, r2, r3, r4, r5, r6⟩ := hrec
    obtain ⟨f1, f2, f3, f4, _, _, _⟩ := hd
    have hstep : dismissGroupGo s (nid :: rest) c =
        dismissGroupGo (dismissInternal s nid "group_dismissed").1 rest
          (if (dismissInternal s nid "group_dismissed").2 then c + 1 else c) :=
      rfl
    refine ⟨?_, ?_, ?_, ?_, ?_, ?_⟩
    · rw [hstep, r1, f1]
    · rw [hstep, r2, f2]
    · rw [hstep, r3, f3]
    · rw [hstep, r4, f4]
    · rw [hstep]; exact le_trans r5 hdl
    · intro p hp
      rw [hstep] at hp
      exact hdm p (r6 p hp)

theorem replacePhase_fields (s : NCState) (n : DesktopNotification) :
    (replacePhase s n).notification_queue = s.notification_queue ∧
    (replacePhase s n).notification_history = s.notification_history ∧
    (replacePhase s n).max_simultaneous = s.max_simultaneous ∧
    (replacePhase s n).history_limit = s.history_limit ∧
    (replacePhase s n).tray_events = s.tray_events ∧
    (replacePhase s n).active_notifications.length ≤
      s.active_notifications.length ∧
    (∀ p ∈ (replacePhase s n).active_notifications,
      p ∈ s.active_notifications) := by
  rcases hrep : n.replace_id with _ | rid
  · simp [replacePhase, hrep]
  · simp only [replacePhase, hrep]
    split
    · have hf := dismissInternal_fields s rid "replaced"
      have hl := dismissInternal_active_len s rid "replaced"
      have hm := dismissInternal_active_mem s rid "replaced"
      exact ⟨hf.1, hf.2.1, hf.2.2.1, hf.2.2.2.1, hf.2.2.2.2.2.1, hl, hm⟩
    · simp

theorem show_notification_eq (s : NCState) (n : DesktopNotification)
    (genId : String) :
    show_notification s n genId =
      (if s.do_not_disturb ∧ (resolveId genId n).priority.value <
          NotificationPriority.critical.value then
        (s, (resolveId genId n).id)
      else
        ({ replacePhase s (resolveId genId n) with notification_queue :=
            (replacePhase s (resolveId genId n)).notification_queue ++
              [(priorityKey (resolveId genId n), resolveId genId n)] },
         (resolveId genId n).id)) := rfl

theorem show_notification_fields (s : NCState) (n : DesktopNotification)
    (genId : String) :
    (show_notification s n genId).1.notification_history =
      s.notification_history ∧
    (show_notification s n genId).1.max_simultaneous = s.max_simultaneous ∧
    (show_notification s n genId).1.history_limit = s.history_limit ∧
    (show_notification s n genId).1.tray_events = s.tray_events ∧
    (show_notification s n genId).1.active_notifications.length ≤
      s.active_notifications.length ∧
    (∀ p ∈ (show_notification s n genId).1.active_notifications,
      p ∈ s.active_notifications) ∧
    (∀ e ∈ (show_notification s n genId).1.notification_queue,
      e ∈ s.notification_queue ∨
        e = (priorityKey (resolveId genId n), resolveId genId n)) := by
  rw [show_notification_eq]
  split
  · exact ⟨rfl, rfl, rfl, rfl, le_refl _, fun p hp => hp, fun e he => Or.inl he⟩
  · have hf := replacePhase_fields s (resolveId genId n)
    obtain ⟨q1, q2, q3, q4, q5, q6, q7⟩ := hf
    refine ⟨q2, q3, q4, q5, q6, q7, ?_⟩
    intro e he
    have he' : e ∈ (replacePhase s (resolveId genId n)).notification_queue ++
        [(priorityKey (resolveId genId n), resolveId genId n)] := he
    rw [q1] at he'
    rcases List.mem_append.mp he' with h | h
    · exact Or.inl h
    · exact Or.inr (List.mem_singleton.mp h)

theorem alistInsert_length (l : List (String × DesktopNotification))
    (k : String) (v : DesktopNotification) :
    (alistInsert l k v).length ≤ l.length + 1 := by
  unfold alistInsert
  split
  · rw [List.length_map]
    omega
  · rw [List.length_append]
    simp

theorem alistInsert_mem {l : List (String × DesktopNotification)}
    {k : String} {v : DesktopNotification}
    {p : String × DesktopNotification} (h : p ∈ alistInsert l k v) :
    p ∈ l ∨ p = (k, v) := by
  unfold alistInsert at h
  split at h
  · rcases List.mem_map.mp h with ⟨q, hq, he⟩
    by_cases hk : q.1 == k
    · rw [if_pos hk] at he
      exact Or.inr he.symm
    · rw [if_neg hk] at he
      exact Or.inl (he ▸ hq)
  · rcases List.mem_append.mp h with h | h
    · exact Or.inl h
    · exact Or.inr (List.mem_singleton.mp h)

theorem displayNotification_fields (s : NCState) (n : DesktopNotification) :
    (displayNotification s n).notification_queue = s.notification_queue ∧
    (displayNotification s n).max_simultaneous = s.max_simultaneous ∧
    (displayNotification s n).history_limit = s.history_limit ∧
    (displayNotification s n).do_not_disturb = s.do_not_disturb ∧
    (displayNotification s n).active_notifications =
      alistInsert s.active_notifications n.id n ∧
    (displayNotification s n).notification_history =
      (if s.history_limit < s.notification_history.length + 1 then
        (s.notification_history ++ [n]).drop 1
      else s.notification_history ++ [n]) ∧
    (displayNotification s n).tray_events =
      s.tray_events ++ [⟨n.title, n.message, n.duration⟩] ∧
    (displayNotification s n).total_sent = s.total_sent + 1 := by
  unfold displayNotification
  refine ⟨rfl, rfl, rfl, rfl, rfl, ?_, rfl, rfl⟩
  show (if s.history_limit < (s.notification_history ++ [n]).length then
      (s.notification_history ++ [n]).drop 1
    else s.notification_history ++ [n]) = _
  rw [List.length_append, List.length_singleton]

theorem display_history_le (s : NCState) (n : DesktopNotification)
    (h : s.notification_history.length ≤ s.history_limit) :
    (displayNotification s n).notification_history.length ≤
      s.history_limit := by
  have hh := (displayNotification_fields s n).2.2.2.2.2.1
  rw [hh]
  split
  · rw [List.length_drop, List.length_append]
    simp only [List.length_singleton]
    omega
  · rw [List.length_append]
    simp only [List.length_singleton]
    omega

theorem workerStep_empty (s : NCState)
    (h : popMin s.notification_queue = none) : workerStep s = s := by
  simp [workerStep, h]

theorem workerStep_at_capacity (s : NCState) (e : QEntry) (rest : List QEntry)
    (hp : popMin s.notification_queue = some (e, rest))
    (h : s.max_simultaneous ≤ s.active_notifications.length) :
    workerStep s = { s with notification_queue := rest ++ [e] } := by
  simp [workerStep, hp, h]

theorem workerStep_display (s : NCState) (e : QEntry) (rest : List QEntry)
    (hp : popMin s.notification_queue = some (e, rest))
    (h : s.active_notifications.length < s.max_simultaneous) :
    workerStep s =
      displayNotification { s with notification_queue := rest } e.2 := by
  have hn : ¬ s.max_simultaneous ≤ s.active_notifications.length := by omega
  simp [workerStep, hp, hn]

theorem workerStep_queue_perm (s : NCState)
    (h : s.max_simultaneous ≤ s.active_notifications.length) :
    (workerStep s).notification_queue.Perm s.notification_queue ∧
    (workerStep s).active_notifications = s.active_notifications ∧
    (workerStep s).notification_history = s.notification_history ∧
    (workerStep s).tray_events = s.tray_events ∧
    (workerStep s).total_sent = s.total_sent ∧
    (workerStep s).dismissed_count = s.dismissed_count := by
  cases hp : popMin s.notification_queue with
  | none =>
    rw [workerStep_empty s hp]
    exact ⟨List.Perm.refl _, rfl, rfl, rfl, rfl, rfl⟩
  | some er =>
    obtain ⟨e, rest⟩ := er
    rw [workerStep_at_capacity s e rest hp h]
    refine ⟨?_, rfl, rfl, rfl, rfl, rfl⟩
    have h1 : (rest ++ [e]).Perm ([e] ++ rest) := List.perm_append_comm
    have h2 : ([e] ++ rest) = e :: rest := rfl
    exact (h1.trans (h2 ▸ List.Perm.refl _)).trans (popMin_cons_perm hp).symm

theorem goodState_init : GoodState initState := by
  refine ⟨by simp [initState], by simp [initState], ?_, ?_⟩ <;>
    simp [initState]

theorem goodState_show (s : NCState) (n : DesktopNotification)
    (genId : String) (hid : (resolveId genId n).id ≠ "") (hg : GoodState s) :
    GoodState (show_notification s n genId).1 := by
  obtain ⟨h1, h2, h3, h4⟩ := hg
  obtain ⟨f1, f2, f3, f4, f5, f6, f7⟩ := show_notification_fields s n genId
  refine ⟨?_, ?_, ?_, ?_⟩
  · rw [f2]
    exact le_trans f5 h1
  · rw [f3, f1]
    exact h2
  · intro p hp
    exact h3 p (f6 p hp)
  · intro e he
    rcases f7 e he with h | h
    · exact h4 e h
    · rw [h]
      exact hid

theorem goodState_dismiss (s : NCState) (nid reason : String)
    (hg : GoodState s) : GoodState (dismissInternal s nid reason).1 := by
  obtain ⟨h1, h2, h3, h4⟩ := hg
  obtain ⟨f1, f2, f3, f4, _, _, _⟩ := dismissInternal_fields s nid reason
  refine ⟨?_, ?_, ?_, ?_⟩
  · rw [f3]
    exact le_trans (dismissInternal_active_len s nid reason) h1
  · rw [f4, f2]
    exact h2
  · intro p hp
    exact h3 p (dismissInternal_active_mem s nid reason p hp)
  · intro e he
    rw [f1] at he
    exact h4 e he

theorem goodState_worker (s : NCState) (hg : GoodState s) :
    GoodState (workerStep s) := by
  obtain ⟨h1, h2, h3, h4⟩ := hg
  cases hp : popMin s.notification_queue with
  | none =>
    rw [workerStep_empty s hp]
    exact ⟨h1, h2, h3, h4⟩
  | some er =>
    obtain ⟨e, rest⟩ := er
    by_cases hcap : s.max_simultaneous ≤ s.active_notifications.length
    · rw [workerStep_at_capacity s e rest hp hcap]
      refine ⟨h1, h2, h3, ?_⟩
      intro x hx
      have : x ∈ s.notification_queue :=
        (popMin_cons_perm hp).mem_iff.mpr
          ((List.perm_append_comm.mem_iff.mp hx))
      exact h4 x this
    · have hlt : s.active_notifications.length < s.max_simultaneous := by
        omega
      rw [workerStep_display s e rest hp hlt]
      set s' : NCState := { s with notification_queue := rest } with hs'
      obtain ⟨f1, f2, f3, f4, f5, f6, f7, f8⟩ :=
        displayNotification_fields s' e.2
      have hrest : ∀ x ∈ rest, x ∈ s.notification_queue := by
        intro x hx
        exact (popMin_cons_perm hp).mem_iff.mpr (List.mem_cons_of_mem e hx)
      refine ⟨?_, ?_, ?_, ?_⟩
      · rw [f2, f5]
        have := alistInsert_length s'.active_notifications e.2.id e.2
        have hlen : s'.active_notifications.length =
            s.active_notifications.length := rfl
        have hmax : s'.max_simultaneous = s.max_simultaneous := rfl
        omega
      · have hle := display_history_le s' e.2 (by exact h2)
        rw [f3]
        exact hle
      · intro p hp'
        rw [f5] at hp'
        rcases alistInsert_mem hp' with h | h
        · exact h3 p h
        · rw [h]
          exact h4 e (popMin_mem hp)
      · intro x hx
        rw [f1] at hx
        exact h4 x (hrest x hx)

theorem goodState_congr (s s' : NCState)
    (ha : s'.active_notifications = s.active_notifications)
    (hq : s'.notification_queue = s.notification_queue)
    (hh : s'.notification_history = s.notification_history)
    (hm : s'.max_simultaneous = s.max_simultaneous)
    (hl : s'.history_limit = s.history_limit)
    (hg : GoodState s) : GoodState s' := by
  unfold GoodState at *
  rw [ha, hq, hh, hm, hl]
  exact hg

theorem claudeNotification_id_ne (operation status : String)
    (d : ClaudeDetails) (now : Nat) :
    (claudeNotification operation status d now).id ≠ "" := by
  show "claude_" ++ operation ++ "_" ++ toString now ≠ ""
  exact string_append_ne_empty _
    (string_append_ne_empty _ (string_append_ne_empty _ (by decide)))

theorem systemStatusNotification_id_ne (component status : String)
    (details : Option String) :
    (systemStatusNotification component status details).id ≠ "" := by
  show "system_" ++ component ++ "_" ++ status ≠ ""
  exact string_append_ne_empty _
    (string_append_ne_empty _ (string_append_ne_empty _ (by decide)))

theorem goodState_claude (s : NCState) (operation status : String)
    (d : ClaudeDetails) (now : Nat) (hg : GoodState s) :
    GoodState (show_claude_notification s operation status d now).1 := by
  show GoodState (show_notification
    { s with claude_notifications := s.claude_notifications + 1 }
    (claudeNotification operation status d now) "").1
  apply goodState_show
  · rw [resolveId_of_ne (claudeNotification_id_ne operation status d now)]
    exact claudeNotification_id_ne operation status d now
  · exact goodState_congr _ _ rfl rfl rfl rfl rfl hg

theorem goodState_system (s : NCState) (component status : String)
    (details : Option String) (hg : GoodState s) :
    GoodState (show_system_status s component status details).1 := by
  show GoodState (show_notification
    { (if component = "claude" ∧
          (status = "connected" ∨ status = "disconnected" ∨ status = "error")
        then { s with tray_status_updates := s.tray_status_updates ++
            [(trayStatusFor status, "Claude: " ++ status)] }
        else s) with
      system_notifications :=
        (if component = "claude" ∧
            (status = "connected" ∨ status = "disconnected" ∨ status = "error")
          then { s with tray_status_updates := s.tray_status_updates ++
              [(trayStatusFor status, "Claude: " ++ status)] }
          else s).system_notifications + 1 }
    (systemStatusNotification component status details) "").1
  apply goodState_show
  · rw [resolveId_of_ne (systemStatusNotification_id_ne component status details)]
    exact systemStatusNotification_id_ne component status details
  · exact goodState_congr _ _ (by split <;> rfl) (by split <;> rfl)
      (by split <;> rfl) (by split <;> rfl) (by split <;> rfl) hg

theorem goodState_cost (s : NCState) (c t : ℚ) (period : String) (now : Nat)
    (r : NCState × String) (hr : show_cost_alert s c t period now = .ok r)
    (hg : GoodState s) : GoodState r.1 := by
  by_cases ht : t = 0
  · rw [show_cost_alert, if_pos ht] at hr
    exact absurd hr (by simp)
  · rw [show_cost_alert, if_neg ht] at hr
    have heq := Except.ok.inj hr
    rw [← heq]
    apply goodState_show
    · have hid : (costAlertNotification c t period now).id ≠ "" := by
        show "cost_alert_" ++ period ≠ ""
        exact string_append_ne_empty _ (by decide)
      rw [resolveId_of_ne hid]
      exact hid
    · exact hg

theorem goodState_progress (s : NCState) (operation_id title : String)
    (progress : ℚ) (status_text : String) (now : Nat) (hg : GoodState s) :
    GoodState (show_progress_notification s operation_id title progress
      status_text now).1 := by
  apply goodState_show
  · have hid : ("progress_" ++ operation_id : String) ≠ "" :=
      string_append_ne_empty _ (by decide)
    rw [resolveId_of_ne hid]
    exact hid
  · exact hg

theorem goodState_dismissGroup (s : NCState) (gid : String)
    (hg : GoodState s) : GoodState (dismiss_group s gid).1 := by
  obtain ⟨h1, h2, h3, h4⟩ := hg
  obtain ⟨f1, f2, f3, f4, f5, f6⟩ := dismissGroupGo_spec
    ((s.active_notifications.filter
      (fun p => p.2.group_id == some gid)).map (·.1)) s 0
  refine ⟨?_, ?_, ?_, ?_⟩
  · rw [show (dismiss_group s gid).1 = (dismissGroupGo s
      ((s.active_notifications.filter
        (fun p => p.2.group_id == some gid)).map (·.1)) 0).1 from rfl, f3]
    exact le_trans f5 h1
  · rw [show (dismiss_group s gid).1 = (dismissGroupGo s
      ((s.active_notifications.filter
        (fun p => p.2.group_id == some gid)).map (·.1)) 0).1 from rfl, f4, f2]
    exact h2
  · intro p hp
    exact h3 p (f6 p hp)
  · intro e he
    have he' : e ∈ (dismissGroupGo s
        ((s.active_notifications.filter
          (fun p => p.2.group_id == some gid)).map (·.1)) 0).1.notification_queue :=
      he
    rw [f1] at he'
    exact h4 e he'

theorem goodState_clearAll (s : NCState) (hg : GoodState s) :
    GoodState (clear_all_notifications s).1 := by
  obtain ⟨h1, h2, h3, h4⟩ := hg
  obtain ⟨f1, f2, f3, f4, f5, f6⟩ := clearAllGo_spec
    (s.active_notifications.map (·.1)) s
  refine ⟨?_, ?_, ?_, ?_⟩
  · rw [show (clear_all_notifications s).1 =
      clearAllGo s (s.active_notifications.map (·.1)) from rfl, f3]
    exact le_trans f5 h1
  · rw [show (clear_all_notifications s).1 =
      clearAllGo s (s.active_notifications.map (·.1)) from rfl, f4, f2]
    exact h2
  · intro p hp
    exact h3 p (f6 p hp)
  · intro e he
    have he' : e ∈ (clearAllGo s
        (s.active_notifications.map (·.1))).notification_queue := he
    rw [f1] at he'
    exact h4 e he'

theorem reachable_goodState : ∀ s, Reachable s → GoodState s := by
  intro s h
  induction h with
  | init => exact goodState_init
  | showNotif s n genId hg _ ih => exact goodState_show s n genId (resolveId_ne n hg) ih
  | claude s operation status d now _ ih => exact goodState_claude s operation status d now ih
  | system s component status details _ ih => exact goodState_system s component status details ih
  | cost s c t period now r _ hr ih => exact goodState_cost s c t period now r hr ih
  | progress s oid title pr txt now _ ih => exact goodState_progress s oid title pr txt now ih
  | dismiss s nid reason _ ih => exact goodState_dismiss s nid reason ih
  | dismissGrp s gid _ ih => exact goodState_dismissGroup s gid ih
  | clearAll s _ ih => exact goodState_clearAll s ih
  | setDnd s b _ ih => exact goodState_congr _ _ rfl rfl rfl rfl rfl ih
  | worker s _ ih => exact goodState_worker s ih

theorem dismissInternal_found (s : NCState) (nid reason : String)
    (p : String × DesktopNotification)
    (h : s.active_notifications.find? (fun q => q.1 == nid) = some p) :
    (dismissInternal s nid reason).2 = true ∧
    (dismissInternal s nid reason).1.active_notifications =
      s.active_notifications.filter (fun q => !(q.1 == nid)) ∧
    (dismissInternal s nid reason).1.dismissed_count =
      s.dismissed_count + 1 := by
  cases hc : p.2.dismiss_callback with
  | none => simp [dismissInternal, h, hc]
  | some b => cases b <;> simp [dismissInternal, h, hc]

/-- Claim C8: dismissing an id that is not in the active set returns `false`
and leaves the whole center state — active set, queue, history, and every
counter — exactly unchanged. -/
theorem dismiss_unknown_noop (s : NCState) (nid reason : String)
    (h : ∀ p ∈ s.active_notifications, p.1 ≠ nid) :
    dismiss_notification s nid reason = (s, false) := by
  have hf : s.active_notifications.find? (fun p => p.1 == nid) = none := by
    rw [List.find?_eq_none]
    intro p hp
    simpa using h p hp
  simp [dismiss_notification, dismissInternal, hf]

theorem dismiss_unknown_noop_witness :
    (∀ p ∈ initState.active_notifications, p.1 ≠ "missing") ∧
    dismiss_notification initState "missing" "user_dismissed" =
      (initState, false) :=
  ⟨by decide, dismiss_unknown_noop initState "missing" "user_dismissed"
    (by decide)⟩

/-- Claim C9: dismissing an id that is present in the active set succeeds no
matter what the user-supplied dismiss callback does: the callback is invoked
(when present) with any exception caught, the entry is removed, the dismissed
counter is incremented, and the call returns `true` — the resulting state is
the same whether the callback returns or raises. -/
theorem dismiss_callback_isolated (s : NCState) (nid reason : String)
    (p : String × DesktopNotification)
    (h : s.active_notifications.find? (fun q => q.1 == nid) = some p) :
    (dismiss_notification s nid reason).2 = true ∧
    (dismiss_notification s nid reason).1.active_notifications =
      s.active_notifications.filter (fun q => !(q.1 == nid)) ∧
    (dismiss_notification s nid reason).1.dismissed_count =
      s.dismissed_count + 1 ∧
    (dismiss_notification s nid reason).1.dismiss_callback_calls =
      (if p.2.dismiss_callback.isSome then
        s.dismiss_callback_calls ++ [(nid, reason)]
      else s.dismiss_callback_calls) ∧
    (p.2.dismiss_callback = some CallbackBehavior.raises →
      (dismiss_notification s nid reason).2 = true) := by
  cases hc : p.2.dismiss_callback with
  | none => simp [dismiss_notification, dismissInternal, h, hc]
  | some b => cases b <;> simp [dismiss_notification, dismissInternal, h, hc]

theorem dismiss_callback_isolated_witness :
    wRaisingState.active_notifications.find? (fun q => q.1 == "wRaising") =
      some ("wRaising", wRaising) ∧
    (dismiss_notification wRaisingState "wRaising" "user_dismissed").2 =
      true ∧
    (dismiss_notification wRaisingState "wRaising"
      "user_dismissed").1.active_notifications = [] ∧
    (dismiss_notification wRaisingState "wRaising"
      "user_dismissed").1.dismissed_count = 1 :=
  have h := dismiss_callback_isolated wRaisingState "wRaising"
    "user_dismissed" ("wRaising", wRaising) (by decide)
  ⟨by decide, h.1, by
    have h2 := h.2.1
    rw [h2]
    decide, by
    have h3 := h.2.2.1
    rw [h3]
    decide⟩

/-- Claim C10: calling `show_cost_alert` with `threshold = 0` hits the
unguarded division `current_cost / threshold` on the first line and raises
`ZeroDivisionError` before any notification is created or queued, so the
center state is untouched and `threshold ≠ 0` is a required precondition. -/
theorem cost_alert_zero_threshold (s : NCState) (current_cost : ℚ)
    (period : String) (now : Nat) :
    show_cost_alert s current_cost 0 period now =
      .error "ZeroDivisionError" := by
  simp [show_cost_alert]

/-- Claim C6: for `threshold > 0` the cost alert goes through, and the
produced notification is priority `high` exactly when the percentage
`current_cost / threshold * 100` reaches 100 (else `normal`), and type
`warning` exactly when it reaches 80 (else `info`); in particular
`current_cost = 90, threshold = 100` gives priority `normal` and type
`warning`. -/
theorem cost_alert_thresholds (s : NCState) (current_cost threshold : ℚ)
    (period : String) (now : Nat) (h : 0 < threshold) :
    show_cost_alert s current_cost threshold period now =
      .ok (show_notification s
        (costAlertNotification current_cost threshold period now) "") ∧
    ((costAlertNotification current_cost threshold period now).priority =
        .high ↔ 100 ≤ current_cost / threshold * 100) ∧
    ((costAlertNotification current_cost threshold period now).priority =
        .normal ↔ current_cost / threshold * 100 < 100) ∧
    ((costAlertNotification current_cost threshold period now).type =
        .warning ↔ 80 ≤ current_cost / threshold * 100) ∧
    ((costAlertNotification current_cost threshold period now).type =
        .info ↔ current_cost / threshold * 100 < 80) ∧
    (costAlertNotification 90 100 period now).priority = .normal ∧
    (costAlertNotification 90 100 period now).type = .warning := by
  refine ⟨?_, ?_, ?_, ?_, ?_, ?_, ?_⟩
  · rw [show_cost_alert, if_neg (ne_of_gt h)]
  · by_cases hp : (100 : ℚ) ≤ current_cost / threshold * 100
    · simp [costAlertNotification, hp]
    · simp [costAlertNotification, hp]
  · by_cases hp : (100 : ℚ) ≤ current_cost / threshold * 100
    · simp [costAlertNotification, hp, not_lt.mpr hp]
    · simp [costAlertNotification, hp, not_le.mp hp]
  · by_cases hp : (80 : ℚ) ≤ current_cost / threshold * 100
    · simp [costAlertNotification, hp]
    · simp [costAlertNotification, hp]
  · by_cases hp : (80 : ℚ) ≤ current_cost / threshold * 100
    · simp [costAlertNotification, hp, not_lt.mpr hp]
    · simp [costAlertNotification, hp, not_le.mp hp]
  · have h90 : ¬((100 : ℚ) ≤ 90 / 100 * 100) := by norm_num
    simp [costAlertNotification, h90]
    norm_num
  · have h90 : (80 : ℚ) ≤ 90 / 100 * 100 := by norm_num
    simp [costAlertNotification, h90]
    norm_num

theorem cost_alert_thresholds_witness :
    (0 : ℚ) < 100 ∧
    ((costAlertNotification 90 100 "daily" 0).priority = .normal ∧
     (costAlertNotification 90 100 "daily" 0).type = .warning) :=
  ⟨by norm_num,
    (cost_alert_thresholds initState 90 100 "daily" 0 (by norm_num)).2.2.2.2.2⟩

/-- Claim C5: the helper factories reproduce the spec's
category → (type, priority, icon) table exactly — `operation.started` gives
`claude_activity`/normal/`claude_working`, `component.error` gives
`error`/high/`status_error`, every other listed combination is priority
normal — and `show_system_status s "claude" "connected" details` additionally
appends a tray status update `(active, "Claude: connected")`. -/
theorem helper_mapping_table :
    (∀ (operation : String) (d : ClaudeDetails) (now : Nat),
      (claudeNotification operation "started" d now).type =
          .claude_activity ∧
      (claudeNotification operation "started" d now).priority = .normal ∧
      (claudeNotification operation "started" d now).icon =
          some "claude_working" ∧
      (claudeNotification operation "completed" d now).type = .success ∧
      (claudeNotification operation "completed" d now).priority = .normal ∧
      (claudeNotification operation "completed" d now).icon =
          some "claude_success" ∧
      (claudeNotification operation "failed" d now).type = .error ∧
      (claudeNotification operation "failed" d now).priority = .normal ∧
      (claudeNotification operation "failed" d now).icon =
          some "claude_error") ∧
    (∀ (component : String) (details : Option String),
      (systemStatusNotification component "connected" details).type =
          .success ∧
      (systemStatusNotification component "connected" details).priority =
          .normal ∧
      (systemStatusNotification component "connected" details).icon =
          some "status_connected" ∧
      (systemStatusNotification component "disconnected" details).type =
          .warning ∧
      (systemStatusNotification component "disconnected" details).priority =
          .normal ∧
      (systemStatusNotification component "disconnected" details).icon =
          some "status_disconnected" ∧
      (systemStatusNotification component "error" details).type = .error ∧
      (systemStatusNotification component "error" details).priority =
          .high ∧
      (systemStatusNotification component "error" details).icon =
          some "status_error" ∧
      (systemStatusNotification component "warning" details).type =
          .warning ∧
      (systemStatusNotification component "warning" details).priority =
          .normal ∧
      (systemStatusNotification component "warning" details).icon =
          some "status_warning" ∧
      (systemStatusNotification component "maintenance" details).type =
          .info ∧
      (systemStatusNotification component "maintenance" details).priority =
          .normal ∧
      (systemStatusNotification component "maintenance" details).icon =
          some "status_maintenance") ∧
    (∀ (s : NCState) (details : Option String),
      (show_system_status s "claude" "connected" details).1.tray_status_updates =
        s.tray_status_updates ++
          [(TrayIconStatus.active, "Claude: connected")]) := by
  refine ⟨?_, ?_, ?_⟩
  · intro operation d now
    exact ⟨rfl, rfl, rfl, rfl, rfl, rfl, rfl, rfl, rfl⟩
  · intro component details
    exact ⟨rfl, rfl, rfl, rfl, rfl, rfl, rfl, rfl, rfl, rfl, rfl, rfl, rfl,
      rfl, rfl⟩
  · intro s details
    have heq : show_system_status s "claude" "connected" details =
        show_notification
          { s with
            tray_status_updates := s.tray_status_updates ++
              [(TrayIconStatus.active, "Claude: connected")]
            system_notifications := s.system_notifications + 1 }
          (systemStatusNotification "claude" "connected" details) "" := rfl
    rw [heq, show_notification_eq]
    split
    · rfl
    · rfl

/-- Claim C2: with do-not-disturb on, a sub-critical `show_notification` call
returns the (possibly generated) id and is a complete no-op — the state,
hence queue, active set, every counter and the tray trace, is unchanged —
while a critical-or-above notification is enqueued normally and, once the
worker runs with capacity, reaches the tray sink. -/
theorem dnd_suppression (s : NCState) (n : DesktopNotification)
    (genId : String) (hdnd : s.do_not_disturb = true) :
    ((resolveId genId n).priority.value <
        NotificationPriority.critical.value →
      show_notification s n genId = (s, (resolveId genId n).id)) ∧
    (NotificationPriority.critical.value ≤
        (resolveId genId n).priority.value →
      show_notification s n genId =
        ({ replacePhase s (resolveId genId n) with notification_queue :=
            (replacePhase s (resolveId genId n)).notification_queue ++
              [(priorityKey (resolveId genId n), resolveId genId n)] },
          (resolveId genId n).id)) ∧
    (s.notification_queue = [] →
      s.active_notifications.length < s.max_simultaneous →
      NotificationPriority.critical.value ≤
        (resolveId genId n).priority.value →
      (workerStep (show_notification s n genId).1).tray_events =
        s.tray_events ++ [⟨(resolveId genId n).title,
          (resolveId genId n).message, (resolveId genId n).duration⟩]) := by
  refine ⟨?_, ?_, ?_⟩
  · intro hlt
    rw [show_notification_eq, if_pos ⟨hdnd, hlt⟩]
  · intro hge
    rw [show_notification_eq, if_neg (fun hcon => absurd hcon.2 (not_lt.mpr hge))]
  · intro hq hcap hge
    have hshow : show_notification s n genId =
        ({ replacePhase s (resolveId genId n) with notification_queue :=
            (replacePhase s (resolveId genId n)).notification_queue ++
              [(priorityKey (resolveId genId n), resolveId genId n)] },
          (resolveId genId n).id) := by
      rw [show_notification_eq,
        if_neg (fun hcon => absurd hcon.2 (not_lt.mpr hge))]
    obtain ⟨r1, r2, r3, r4, r5, r6, r7⟩ :=
      replacePhase_fields s (resolveId genId n)
    set t := (show_notification s n genId).1 with ht
    have htq : t.notification_queue =
        [(priorityKey (resolveId genId n), resolveId genId n)] := by
      rw [ht, hshow]
      show (replacePhase s (resolveId genId n)).notification_queue ++ _ = _
      rw [r1, hq]
      rfl
    have hpop : popMin t.notification_queue =
        some ((priorityKey (resolveId genId n), resolveId genId n), []) := by
      rw [htq]
      rfl
    have htact : t.active_notifications.length < t.max_simultaneous := by
      have h1 : t.active_notifications =
          (replacePhase s (resolveId genId n)).active_notifications := by
        rw [ht, hshow]
      have h2 : t.max_simultaneous = s.max_simultaneous := by
        rw [ht, hshow]
        show (replacePhase s (resolveId genId n)).max_simultaneous = _
        rw [r3]
      rw [h1, h2]
      omega
    rw [workerStep_display t _ _ hpop htact]
    have hf := (displayNotification_fields
      { t with notification_queue := [] } (resolveId genId n)).2.2.2.2.2.2.1
    rw [hf]
    show t.tray_events ++ _ = _
    have htray : t.tray_events = s.tray_events := by
      rw [ht, hshow]
      show (replacePhase s (resolveId genId n)).tray_events = _
      rw [r5]
    rw [htray]

theorem dnd_suppression_witness :
    wDndState.do_not_disturb = true ∧
    (NotificationPriority.critical.value ≤
        (resolveId "notif_g" wCritical).priority.value →
      show_notification wDndState wCritical "notif_g" =
        ({ replacePhase wDndState (resolveId "notif_g" wCritical) with
            notification_queue :=
              (replacePhase wDndState
                (resolveId "notif_g" wCritical)).notification_queue ++
                [(priorityKey (resolveId "notif_g" wCritical),
                  resolveId "notif_g" wCritical)] },
          (resolveId "notif_g" wCritical).id)) ∧
    (wDndState.notification_queue = [] →
      wDndState.active_notifications.length < wDndState.max_simultaneous →
      NotificationPriority.critical.value ≤
        (resolveId "notif_g" wCritical).priority.value →
      (workerStep
          (show_notification wDndState wCritical "notif_g").1).tray_events =
        wDndState.tray_events ++ [⟨(resolveId "notif_g" wCritical).title,
          (resolveId "notif_g" wCritical).message,
          (resolveId "notif_g" wCritical).duration⟩]) :=
  have h := dnd_suppression wDndState wCritical "notif_g" (by decide)
  ⟨by decide, h.2.1, h.2.2⟩

/-- Claim C4: in every reachable state the active set never exceeds
`max_simultaneous`; the worker leaves the active set untouched when at
capacity and only inserts a popped entry when strictly below the cap, and
the other operations never grow the active set. -/
theorem active_set_capacity (s : NCState) (h : Reachable s) :
    s.active_notifications.length ≤ s.max_simultaneous ∧
    (s.max_simultaneous ≤ s.active_notifications.length →
      (workerStep s).active_notifications = s.active_notifications) ∧
    (∀ (e : QEntry) (rest : List QEntry),
      popMin s.notification_queue = some (e, rest) →
      s.active_notifications.length < s.max_simultaneous →
      (workerStep s).active_notifications =
        alistInsert s.active_notifications e.2.id e.2) ∧
    (∀ (n : DesktopNotification) (genId : String),
      (show_notification s n genId).1.active_notifications.length ≤
        s.active_notifications.length) ∧
    (∀ (nid reason : String),
      (dismiss_notification s nid reason).1.active_notifications.length ≤
        s.active_notifications.length) := by
  refine ⟨(reachable_goodState s h).1, ?_, ?_, ?_, ?_⟩
  · intro hcap
    exact (workerStep_queue_perm s hcap).2.1
  · intro e rest hp hlt
    rw [workerStep_display s e rest hp hlt]
    exact (displayNotification_fields
      { s with notification_queue := rest } e.2).2.2.2.2.1
  · intro n genId
    exact (show_notification_fields s n genId).2.2.2.2.1
  · intro nid reason
    exact dismissInternal_active_len s nid reason

theorem active_set_capacity_witness :
    initState.active_notifications.length ≤ initState.max_simultaneous ∧
    (initState.max_simultaneous ≤ initState.active_notifications.length →
      (workerStep initState).active_notifications =
        initState.active_notifications) ∧
    (∀ (e : QEntry) (rest : List QEntry),
      popMin initState.notification_queue = some (e, rest) →
      initState.active_notifications.length < initState.max_simultaneous →
      (workerStep initState).active_notifications =
        alistInsert initState.active_notifications e.2.id e.2) ∧
    (∀ (n : DesktopNotification) (genId : String),
      (show_notification initState n genId).1.active_notifications.length ≤
        initState.active_notifications.length) ∧
    (∀ (nid reason : String),
      (dismiss_notification initState nid
          reason).1.active_notifications.length ≤
        initState.active_notifications.length) :=
  active_set_capacity initState Reachable.init

/-- Claim C7: in every reachable state the history never exceeds
`history_limit`; display evicts index 0 (FIFO) exactly when appending would
pass the bound, and dismissal, replacement, group dismissal and `clear_all`
never remove history entries. -/
theorem history_bound_fifo (s : NCState) (h : Reachable s) :
    s.notification_history.length ≤ s.history_limit ∧
    (∀ n : DesktopNotification,
      (displayNotification s n).notification_history =
        (if s.history_limit < s.notification_history.length + 1 then
          (s.notification_history ++ [n]).drop 1
        else s.notification_history ++ [n])) ∧
    (∀ nid reason : String,
      (dismiss_notification s nid reason).1.notification_history =
        s.notification_history) ∧
    (∀ gid : String,
      (dismiss_group s gid).1.notification_history =
        s.notification_history) ∧
    (clear_all_notifications s).1.notification_history =
      s.notification_history ∧
    (∀ (n : DesktopNotification) (genId : String),
      (show_notification s n genId).1.notification_history =
        s.notification_history) := by
  refine ⟨(reachable_goodState s h).2.1, ?_, ?_, ?_, ?_, ?_⟩
  · intro n
    exact (displayNotification_fields s n).2.2.2.2.2.1
  · intro nid reason
    exact (dismissInternal_fields s nid reason).2.1
  · intro gid
    exact (dismissGroupGo_spec _ s 0).2.1
  · exact (clearAllGo_spec _ s).2.1
  · intro n genId
    exact (show_notification_fields s n genId).1

theorem history_bound_fifo_witness :
    initState.notification_history.length ≤ initState.history_limit ∧
    (∀ n : DesktopNotification,
      (displayNotification initState n).notification_history =
        (if initState.history_limit <
            initState.notification_history.length + 1 then
          (initState.notification_history ++ [n]).drop 1
        else initState.notification_history ++ [n])) ∧
    (∀ nid reason : String,
      (dismiss_notification initState nid reason).1.notification_history =
        initState.notification_history) ∧
    (∀ gid : String,
      (dismiss_group initState gid).1.notification_history =
        initState.notification_history) ∧
    (clear_all_notifications initState).1.notification_history =
      initState.notification_history ∧
    (∀ (n : DesktopNotification) (genId : String),
      (show_notification initState n genId).1.notification_history =
        initState.notification_history) :=
  history_bound_fifo initState Reachable.init

/-- Claim C1: every non-suppressed `show_notification` enqueues with key
`(100 - priority, timestamp)`; the worker always pops a minimal-key entry, so
the delivery order of a queue is sorted by descending priority with ties
broken by ascending timestamp and is a permutation of the queue; a worker
iteration at capacity pushes the identical tuple back (the queue stays the
same multiset and nothing else changes), and for distinct keys any
permutation of the queue — hence any number of requeue-retry cycles — yields
the identical delivery order, so no notification's position among its
equal-priority class ever regresses. -/
theorem queue_dequeue_order (q : List QEntry) (s : NCState) (e : QEntry)
    (rest : List QEntry) (hpop : popMin q = some (e, rest))
    (hcap : s.max_simultaneous ≤ s.active_notifications.length) :
    (∀ x ∈ q, keyLe e.1 x.1) ∧
    (drain q).Perm q ∧
    List.Pairwise (fun a b : QEntry => keyLe a.1 b.1) (drain q) ∧
    (workerStep s).notification_queue.Perm s.notification_queue ∧
    (workerStep s).active_notifications = s.active_notifications ∧
    (workerStep s).notification_history = s.notification_history ∧
    (workerStep s).tray_events = s.tray_events ∧
    (∀ q' : List QEntry, q.Perm q' → (q.map Prod.fst).Nodup →
      drain q = drain q') ∧
    (∀ (s₁ : NCState) (n : DesktopNotification) (genId : String),
      ¬(s₁.do_not_disturb = true ∧ (resolveId genId n).priority.value <
        NotificationPriority.critical.value) →
      (show_notification s₁ n genId).1.notification_queue =
        (replacePhase s₁ (resolveId genId n)).notification_queue ++
          [(priorityKey (resolveId genId n), resolveId genId n)]) := by
  obtain ⟨w1, w2, w3, w4, _, _⟩ := workerStep_queue_perm s hcap
  refine ⟨popMin_min hpop, drain_perm q, drain_sorted q, w1, w2, w3, w4,
    ?_, ?_⟩
  · intro q' hq hnd
    exact drain_eq_of_perm hq hnd
  · intro s₁ n genId hnd
    rw [show_notification_eq, if_neg hnd]

theorem queue_dequeue_order_witness :
    (∀ x ∈ wQueue, keyLe (priorityKey wHigh2, wHigh2).1 x.1) ∧
    (drain wQueue).Perm wQueue ∧
    List.Pairwise (fun a b : QEntry => keyLe a.1 b.1) (drain wQueue) ∧
    (workerStep wAtCapacity).notification_queue.Perm
      wAtCapacity.notification_queue ∧
    (workerStep wAtCapacity).active_notifications =
      wAtCapacity.active_notifications ∧
    (workerStep wAtCapacity).notification_history =
      wAtCapacity.notification_history ∧
    (workerStep wAtCapacity).tray_events = wAtCapacity.tray_events ∧
    (∀ q' : List QEntry, wQueue.Perm q' → (wQueue.map Prod.fst).Nodup →
      drain wQueue = drain q') ∧
    (∀ (s₁ : NCState) (n : DesktopNotification) (genId : String),
      ¬(s₁.do_not_disturb = true ∧ (resolveId genId n).priority.value <
        NotificationPriority.critical.value) →
      (show_notification s₁ n genId).1.notification_queue =
        (replacePhase s₁ (resolveId genId n)).notification_queue ++
          [(priorityKey (resolveId genId n), resolveId genId n)]) :=
  queue_dequeue_order wQueue wAtCapacity (priorityKey wHigh2, wHigh2)
    [(priorityKey wNormal5, wNormal5)] (by decide) (by decide)

/-- Claim C3 counterexample: in the reachable state `wDndBase` (do-not-disturb
on, `wBase` active), `show_notification` of `wReplacer` — whose `replace_id`
names the active `wBase` — is suppressed by the do-not-disturb check before
the replacement handling runs, so contrary to the claim the target is not
dismissed: the call returns with the state unchanged, the dismissed counter
still 0 and `wBase` still active. -/
theorem replace_dnd_counterexample :
    Reachable wDndBase ∧
    (wDndBase.do_not_disturb = true ∧
     wReplacer.replace_id = some "wBase" ∧
     ("wBase", wBase) ∈ wDndBase.active_notifications ∧
     show_notification wDndBase wReplacer "notif_g" =
       (wDndBase, "wReplacer") ∧
     (show_notification wDndBase wReplacer "notif_g").1.dismissed_count = 0 ∧
     ("wBase", wBase) ∈
       (show_notification wDndBase wReplacer
         "notif_g").1.active_notifications) :=
  ⟨Reachable.setDnd _ true (Reachable.worker _
      (Reachable.showNotif _ wBase "notif_g" (by decide) Reachable.init)),
    by decide⟩

/-- Claim C3 (amended): for every call to `show_notification` in a reachable
state that is not suppressed by do-not-disturb, whose notification carries a
`replace_id` naming a currently active notification, the target is dismissed
with reason `replaced` (removed from the active set, its dismiss callback
invoked, the dismissed counter incremented) before the new notification is
placed in the queue, hence before it can ever enter the active set. -/
theorem replace_dismissed_before_enqueue (s : NCState) (h : Reachable s)
    (n : DesktopNotification) (genId rid : String)
    (hrep : (resolveId genId n).replace_id = some rid)
    (hact : ∃ p ∈ s.active_notifications, p.1 = rid)
    (hnd : ¬(s.do_not_disturb = true ∧ (resolveId genId n).priority.value <
      NotificationPriority.critical.value)) :
    show_notification s n genId =
      ({ (dismissInternal s rid "replaced").1 with notification_queue :=
          (dismissInternal s rid "replaced").1.notification_queue ++
            [(priorityKey (resolveId genId n), resolveId genId n)] },
        (resolveId genId n).id) ∧
    (dismissInternal s rid "replaced").2 = true ∧
    (show_notification s n genId).1.active_notifications =
      s.active_notifications.filter (fun q => !(q.1 == rid)) ∧
    (show_notification s n genId).1.dismissed_count =
      s.dismissed_count + 1 ∧
    (∀ p ∈ (show_notification s n genId).1.active_notifications,
      p.1 ≠ rid) := by
  have hgood := reachable_goodState s h
  obtain ⟨p0, hp0mem, hp0id⟩ := hact
  have hridne : rid ≠ "" := hp0id ▸ hgood.2.2.1 p0 hp0mem
  have hany : s.active_notifications.any (fun p => p.1 == rid) = true := by
    rw [List.any_eq_true]
    exact ⟨p0, hp0mem, by simpa using hp0id⟩
  have hrp : replacePhase s (resolveId genId n) =
      (dismissInternal s rid "replaced").1 := by
    simp only [replacePhase, hrep]
    rw [if_pos ⟨hridne, hany⟩]
  have hshow : show_notification s n genId =
      ({ (dismissInternal s rid "replaced").1 with notification_queue :=
          (dismissInternal s rid "replaced").1.notification_queue ++
            [(priorityKey (resolveId genId n), resolveId genId n)] },
        (resolveId genId n).id) := by
    rw [show_notification_eq, if_neg hnd, hrp]
  cases hfind : s.active_notifications.find? (fun q => q.1 == rid) with
  | none =>
    have hno := List.find?_eq_none.mp hfind p0 hp0mem
    exact absurd (by simpa using hp0id) (by simpa using hno)
  | some pf =>
    obtain ⟨d1, d2, d3⟩ := dismissInternal_found s rid "replaced" pf hfind
    refine ⟨hshow, d1, ?_, ?_, ?_⟩
    · rw [hshow]
      show (dismissInternal s rid "replaced").1.active_notifications = _
      exact d2
    · rw [hshow]
      show (dismissInternal s rid "replaced").1.dismissed_count = _
      exact d3
    · intro p hp
      rw [hshow] at hp
      have hp' : p ∈ (dismissInternal s rid "replaced").1.active_notifications :=
        hp
      rw [d2] at hp'
      have hb := (List.mem_filter.mp hp').2
      intro hcon
      rw [hcon] at hb
      simp at hb

theorem replace_dismissed_before_enqueue_witness :
    show_notification wWithBase wReplacer "notif_g" =
      ({ (dismissInternal wWithBase "wBase" "replaced").1 with
          notification_queue :=
            (dismissInternal wWithBase "wBase"
              "replaced").1.notification_queue ++
              [(priorityKey (resolveId "notif_g" wReplacer),
                resolveId "notif_g" wReplacer)] },
        (resolveId "notif_g" wReplacer).id) ∧
    (dismissInternal wWithBase "wBase" "replaced").2 = true ∧
    (show_notification wWithBase wReplacer
        "notif_g").1.active_notifications =
      wWithBase.active_notifications.filter (fun q => !(q.1 == "wBase")) ∧
    (show_notification wWithBase wReplacer "notif_g").1.dismissed_count =
      wWithBase.dismissed_count + 1 ∧
    (∀ p ∈ (show_notification wWithBase wReplacer
        "notif_g").1.active_notifications, p.1 ≠ "wBase") :=
  replace_dismissed_before_enqueue wWithBase
    (Reachable.worker _
      (Reachable.showNotif _ wBase "notif_g" (by decide) Reachable.init))
    wReplacer "notif_g" "wBase" (by decide) (by decide) (by decide)

end AgentSolvr
